import Mathlib

/-!
Verification of the user-management-UI front-end (React/TypeScript).

Shallow embedding of:
* `src/utils/api.ts` (`getApiBaseUrl`, `getApiUrl`)
* `src/utils/oauth2.ts` (`getOAuth2AuthorizationUrl`, `initiateOAuth2Login`)
* `src/components/oauth2/OAuth2Callback.tsx` (`handleCallback`, `handleEmailSubmit`)
* `src/components/login/Login.tsx` (`handleSubmit`)

Modelling conventions:
* Browser storage (`localStorage` / `sessionStorage`) is an association list of
  string key/value pairs with JS `getItem`/`setItem`/`removeItem` semantics.
* URL query strings are association lists of decoded key/value pairs
  (`URLSearchParams.get` returns the first binding; `encodeURIComponent`
  followed by `URLSearchParams` decoding round-trips, so parameters are
  recorded decoded).
* Each `fetch` is a suspend point whose result (rejection, or a response with
  status / content-type / parsed-JSON body / raw text) is an input supplied by
  the environment; a body of `none` means `response.json()` would reject.
* JS truthiness on nullable strings: `null`/`undefined` and `""` are falsy.
-/

/-- JS truthiness of a nullable string (`null`/`undefined`/`""` are falsy). -/
def truthyOpt : Option String → Bool
  | none => false
  | some s => s != ""

/-- JS `a || b` where `a` is a nullable string and `b` a string default. -/
def jsOr : Option String → String → String
  | some s, b => if s == "" then b else s
  | none, b => b

/-- JS `a || b` on two strings (`""` is falsy). -/
def jsOrStr (a b : String) : String :=
  if a == "" then b else a

/-- Character-list version of "starts with". -/
def charsStartWith : List Char → List Char → Bool
  | [], _ => true
  | _ :: _, [] => false
  | a :: as, b :: bs => a == b && charsStartWith as bs

/-- Character-list version of "occurs as a contiguous substring". -/
def charsContain (sub : List Char) : List Char → Bool
  | [] => charsStartWith sub []
  | c :: rest => charsStartWith sub (c :: rest) || charsContain sub rest

/-- JS `s.includes(sub)` (substring occurrence test). -/
def jsIncludes (s sub : String) : Bool :=
  charsContain sub.data s.data

/-- JS `s.startsWith(p)`. -/
def jsStartsWith (s p : String) : Bool :=
  charsStartWith p.data s.data

/-- JS `s.endsWith(p)`. -/
def jsEndsWith (s p : String) : Bool :=
  charsStartWith p.data.reverse s.data.reverse

/-- Drop leading whitespace characters. -/
def dropWhileWS : List Char → List Char
  | [] => []
  | c :: rest => if c.isWhitespace then dropWhileWS rest else c :: rest

/-- JS `s.trim()`: strip leading and trailing whitespace (structural, so it
evaluates in the kernel). -/
def jsTrim (s : String) : String :=
  ⟨dropWhileWS ((dropWhileWS s.data.reverse).reverse)⟩

/-- `(headers.get('content-type') || '').includes('application/json')` — the
content-type check used on every expected-JSON response. -/
def ctIsJson : Option String → Bool
  | none => false
  | some c => jsIncludes c "application/json"

/-- Rendering of a nullable content-type inside a JS template literal
(`null` prints as `"null"`). -/
def ctText : Option String → String
  | none => "null"
  | some c => c

/-- Browser key-value storage (`localStorage` / `sessionStorage`):
an association list, newest binding first. -/
abbrev Store := List (String × String)

/-- `storage.getItem(k)`: the first binding for `k`, or `null`. -/
def Store.getItem : Store → String → Option String
  | [], _ => none
  | (k', v) :: rest, k => if k' == k then some v else Store.getItem rest k

/-- `storage.removeItem(k)`: drop every binding for `k`. -/
def Store.removeItem : Store → String → Store
  | [], _ => []
  | (k', v) :: rest, k =>
    if k' == k then Store.removeItem rest k else (k', v) :: Store.removeItem rest k

/-- `storage.setItem(k, v)`: replace any binding for `k` by `v`. -/
def Store.setItem (s : Store) (k v : String) : Store :=
  (k, v) :: s.removeItem k

/-- Decoded query parameters of a URL (`URLSearchParams`). -/
abbrev Params := List (String × String)

/-- `searchParams.get(k)`: first value for `k`, or `null`. -/
def Params.get : Params → String → Option String
  | [], _ => none
  | (k', v) :: rest, k => if k' == k then some v else Params.get rest k

/-- `searchParams.has(k)` (`true` exactly when `get` is non-null). -/
def Params.hasParam (ps : Params) (k : String) : Bool :=
  (ps.get k).isSome

/-- Result of one `fetch` with a JSON body type `β`: either the promise
rejected (a `NetworkError` with its message), or a response arrived with
`ok` (2xx), its status code, optional content-type header, the JSON body when
the text parses as JSON (`none` = `response.json()` rejects), and raw text. -/
inductive FetchResult (β : Type) where
  | rejected (msg : String)
  | response (ok : Bool) (status : Nat) (contentType : Option String)
      (body : Option β) (text : String)
deriving Repr, DecidableEq

/-- JSON body shape read by the OAuth2 token channels: `token`, `email`,
`user?.email` (flattened as `userEmail`; `none` when the user object or its
email is absent), `message`. -/
structure TokenBody where
  token : Option String
  email : Option String
  userEmail : Option String
  message : Option String
deriving Repr, DecidableEq

/-- JSON body shape of `GET /api/oauth2/authorization-url/{provider}`. -/
structure AuthUrlBody where
  authorizationUrl : Option String
  url : Option String
  authorization_url : Option String
  message : Option String
deriving Repr, DecidableEq

/-- JSON body shape of `POST /api/auth/login`. -/
structure LoginBody where
  token : Option String
  message : Option String
deriving Repr, DecidableEq

-- ### Store lemmas

theorem Store.getItem_removeItem_self (s : Store) (k : String) :
    (s.removeItem k).getItem k = none := by
  induction s with
  | nil => rfl
  | cons a t ih =>
    obtain ⟨ak, av⟩ := a
    by_cases hk : ak = k
    · simpa [Store.removeItem, hk] using ih
    · simp [Store.removeItem, Store.getItem, hk, ih]

theorem Store.getItem_removeItem_ne (s : Store) (k k' : String) (h : k' ≠ k) :
    (s.removeItem k).getItem k' = s.getItem k' := by
  induction s with
  | nil => rfl
  | cons a t ih =>
    obtain ⟨ak, av⟩ := a
    by_cases hk : ak = k
    · subst hk
      have hne : (ak == k') = false := by simpa using Ne.symm h
      simp [Store.removeItem, Store.getItem, hne, ih]
    · by_cases hk2 : ak = k'
      · subst hk2
        have hne : (ak == k) = false := by simpa using h
        simp [Store.removeItem, Store.getItem, hne]
      · simp [Store.removeItem, Store.getItem, hk, hk2, ih]

theorem Store.getItem_setItem_self (s : Store) (k v : String) :
    (s.setItem k v).getItem k = some v := by
  simp [Store.setItem, Store.getItem]

theorem Store.getItem_setItem_ne (s : Store) (k k' v : String) (h : k' ≠ k) :
    (s.setItem k v).getItem k' = s.getItem k' := by
  have hne : (k == k') = false := by
    simp
    exact fun he => h he.symm
  simp [Store.setItem, Store.getItem, hne, Store.getItem_removeItem_ne s k k' h]

-- ### src/utils/api.ts

/-- Resolved build configuration (`src/config`): `config.api.baseUrl` is `""`
in development (`localConfig`) and the configured backend origin in
production (`productionConfig`). -/
structure ApiConfig where
  baseUrl : String
deriving Repr, DecidableEq

/-- `getApiBaseUrl` (src/utils/api.ts, lines 13-16). -/
def getApiBaseUrl (cfg : ApiConfig) : String :=
  cfg.baseUrl

/-- `getApiUrl` (src/utils/api.ts, lines 23-34). -/
def getApiUrl (cfg : ApiConfig) (endpoint : String) : String :=
  let baseUrl := getApiBaseUrl cfg
  let cleanEndpoint := if jsStartsWith endpoint "/" then endpoint else "/" ++ endpoint
  if baseUrl == "" then cleanEndpoint
  else baseUrl ++ cleanEndpoint

-- ### src/utils/oauth2.ts

/-- Ambient browser context: `window.location.origin`,
`window.location.pathname`, and `import.meta.env.BASE_URL`. -/
structure Browser where
  origin : String
  pathname : String
  baseUrlEnv : Option String
deriving Repr, DecidableEq

/-- The redirect URI computed by `getOAuth2AuthorizationUrl`
(src/utils/oauth2.ts, lines 24-26): front-end origin + base path +
`oauth2/callback`. -/
def callbackRedirectUri (b : Browser) : String :=
  let basePath := jsOr b.baseUrlEnv "/user-management-UI"
  let callbackPath := if jsEndsWith basePath "/" then "oauth2/callback" else "/oauth2/callback"
  b.origin ++ basePath ++ callbackPath

/-- URL normalization in `getOAuth2AuthorizationUrl`
(src/utils/oauth2.ts, lines 48-66): relative backend-style paths resolve
against the backend origin, other relative URLs against the current origin. -/
def normalizeAuthUrl (cfg : ApiConfig) (b : Browser) (authUrl : String) : String :=
  if authUrl != "" && !jsStartsWith authUrl "http://" && !jsStartsWith authUrl "https://" then
    if jsStartsWith authUrl "/" then
      if jsStartsWith authUrl "/oauth2/" || jsStartsWith authUrl "/api/" then
        jsOrStr (getApiBaseUrl cfg) "http://localhost:8080" ++ authUrl
      else
        b.origin ++ authUrl
    else
      b.origin ++ "/" ++ authUrl
  else
    authUrl

/-- `getOAuth2AuthorizationUrl` (src/utils/oauth2.ts, lines 22-74), as a
function of the fetch result; `Except.error` is a raised exception (the
function's own `catch` only logs and re-raises). A JSON-header response whose
body does not parse makes `response.json()` reject; the engine-defined parse
message is represented by a fixed string. -/
def getOAuth2AuthorizationUrl (cfg : ApiConfig) (b : Browser)
    (resp : FetchResult AuthUrlBody) : Except String String :=
  match resp with
  | .rejected m => .error m
  | .response ok status ct body text =>
    if !ok then
      let fallback := s!"HTTP error! status: {status}"
      match body with
      | some e => .error (jsOr e.message fallback)
      | none => .error (jsOr (some "Failed to get authorization URL") fallback)
    else if !ctIsJson ct then
      let ctStr := ctText ct
      let t100 := text.take 100
      .error s!"Expected JSON but got: {ctStr}. Response: {t100}"
    else
      match body with
      | none => .error "Unexpected end of JSON input"
      | some data =>
        let raw := jsOr data.authorizationUrl (jsOr data.url (jsOr data.authorization_url ""))
        .ok (normalizeAuthUrl cfg b raw)

/-- Removal of the three transient flow-state keys, as done by every
clearing site in src/utils/oauth2.ts and the failure path of
OAuth2Callback.tsx. -/
def clearFlow (s : Store) : Store :=
  ((s.removeItem "oauth2_provider").removeItem "oauth2_redirect_after_login").removeItem
    "oauth2_frontend_origin"

/-- Observable result of `initiateOAuth2Login`: the session store afterwards,
the `window.location.href` assignment when navigation happened, and the
re-raised error message when it failed before navigating. -/
structure InitiateResult where
  session : Store
  navHref : Option String
  raised : Option String
deriving Repr, DecidableEq

/-- `initiateOAuth2Login` (src/utils/oauth2.ts, lines 80-105): writes the
three flow-state keys, fetches the authorization URL, and navigates; on any
failure before navigation it clears the flow state and re-raises. -/
def initiateOAuth2Login (provider : String) (cfg : ApiConfig) (b : Browser)
    (resp : FetchResult AuthUrlBody) (session : Store) : InitiateResult :=
  let s1 := ((session.setItem "oauth2_provider" provider).setItem
      "oauth2_redirect_after_login" b.pathname).setItem "oauth2_frontend_origin" b.origin
  match getOAuth2AuthorizationUrl cfg b resp with
  | .error m => ⟨clearFlow s1, none, some m⟩
  | .ok authUrl =>
    if authUrl == "" then
      ⟨clearFlow s1, none, some "Authorization URL not received from server"⟩
    else
      ⟨s1, some authUrl, none⟩

-- ### src/components/oauth2/OAuth2Callback.tsx

/-- The page the callback view is mounted on. `onBackendSuccessPage` abstracts
the URL-host inspection of lines 27-31 (`currentUrl.includes(...)` against the
backend base URL); `params` are the decoded query parameters of the current
URL (the router's `searchParams` and `new URLSearchParams(location.search)`
read the same query string); `origin` is `window.location.origin`. -/
structure Page where
  onBackendSuccessPage : Bool
  params : Params
  origin : String
deriving Repr, DecidableEq

/-- Component state relevant to the flow: the `token`, `oauth2Email` and
`userEmail` `useState` cells (all initially `""`). -/
structure CompState where
  token : String
  oauth2Email : String
  userEmail : String
deriving Repr, DecidableEq

/-- Initial component state of a fresh page load. -/
def initState : CompState := ⟨"", "", ""⟩

/-- Body of the `POST /api/oauth2/callback` request issued by the code
exchange (lines 174-186). -/
structure ExchangeRequest where
  code : String
  state : Option String
  provider : String
  redirectUri : String
deriving Repr, DecidableEq

/-- Terminal observable outcome of one invocation of `handleCallback`:

* `redirected token email` — `window.location.href` was set to the
  front-end's own callback URL carrying these query parameters (lines 57-59
  and 76-78; `encodeURIComponent` round-trips, so the decoded parameters are
  recorded); a full page navigation, not a state transition within this load;
* `confirmEmail token oauth2Email userEmail` — the email-confirmation screen
  is shown (`showEmailInput = true`), i.e. `AwaitingEmailConfirmation`,
  holding the captured token and emails;
* `failed message` — the error screen is shown and
  `navigate('/login', {state: {oauth2Error: message}})` is scheduled after
  3000 ms (lines 246-259). -/
inductive Outcome where
  | redirected (token : String) (email : Option String)
  | confirmEmail (token : String) (oauth2Email : String) (userEmail : String)
  | failed (message : String)
deriving Repr, DecidableEq

/-- The three network probes `handleCallback` can issue, in source order:
the credentialed fetch of the current (backend success-page) URL (line 37),
the fetch of `GET /api/oauth2/success` (line 94), and the
`POST /api/oauth2/callback` code exchange (line 174). -/
inductive Probe where
  | successPage
  | successEndpoint
  | codeExchange
deriving Repr, DecidableEq

/-- Environment of one invocation: the results of the three possible fetches. -/
structure Env where
  successPage : FetchResult TokenBody
  successEndpoint : FetchResult TokenBody
  codeExchange : FetchResult TokenBody
deriving Repr, DecidableEq

/-- Everything observable about one invocation of `handleCallback`: the
outcome, the component state and session storage afterwards, the probes
issued (in order), and the code-exchange request body when one was sent. -/
structure RunResult where
  outcome : Outcome
  state : CompState
  session : Store
  probes : List Probe
  exchange : Option ExchangeRequest
deriving Repr, DecidableEq

/-- A failure caught by the outer `catch` (lines 246-259): the error message
is displayed, the three flow-state keys are removed, and the post-failure
redirect to `/login` is scheduled. -/
def failedRun (msg : String) (session : Store) (st : CompState)
    (probes : List Probe) (ex : Option ExchangeRequest) : RunResult :=
  ⟨.failed msg, st, clearFlow session, probes, ex⟩

/-- Channel 1 (lines 33-90): on the backend success page, fetch the current
URL. `some (.redirected ..)` is the only conclusive result; every throw
inside this block is swallowed by the inner `catch` (lines 87-89), which
makes the reconciler fall through to channel 2 (`none`). -/
def chan1 (env : Env) (page : Page) : Option Outcome :=
  if !page.onBackendSuccessPage then none
  else
    match env.successPage with
    | .rejected _ => none
    | .response ok _ ct body _ =>
      if !ok then none
      else if ctIsJson ct then
        match body with
        | none => none
        | some data =>
          match data.token with
          | some t =>
            if t != "" && jsTrim t != "" then
              some (.redirected t (if truthyOpt data.email then data.email else none))
            else none
          | none => none
      else
        match page.params.get "token" with
        | some t =>
          if t != "" && jsTrim t != "" then
            some (.redirected t
              (if truthyOpt (page.params.get "email") then page.params.get "email" else none))
          else none
        | none => none

/-- Channel 2 (lines 93-129): fetch `GET /api/oauth2/success`. Conclusive
exactly when the response is OK JSON with a truthy `token`; the captured
email is `successData.user?.email || successData.email || ''`. All failures
are swallowed by the inner `catch` (lines 127-129). -/
def chan2 (env : Env) : Option (String × String) :=
  match env.successEndpoint with
  | .rejected _ => none
  | .response ok _ ct body _ =>
    if !ok then none
    else if !ctIsJson ct then none
    else
      match body with
      | none => none
      | some data =>
        match data.token with
        | some t =>
          if t != "" then some (t, jsOr data.userEmail (jsOr data.email "")) else none
        | none => none

/-- Channel 4 (lines 169-228): exchange the authorization code via
`POST /api/oauth2/callback`. The provider falls back to `'google'` when the
`oauth2_provider` flow-state key is absent (line 170). Failures here are NOT
swallowed: they reach the outer `catch`. -/
def exchangeCode (env : Env) (page : Page) (session : Store) (st : CompState)
    (probes : List Probe) (c : String) : RunResult :=
  let provider := jsOr (session.getItem "oauth2_provider") "google"
  let req : ExchangeRequest :=
    ⟨c, page.params.get "state", provider, page.origin ++ "/oauth2/callback"⟩
  match env.codeExchange with
  | .rejected m => failedRun m session st probes (some req)
  | .response ok status ct body text =>
    if !ok then
      let fallback := s!"HTTP error! status: {status}"
      let msg :=
        if ctIsJson ct then
          match body with
          | some e => jsOr e.message fallback
          | none => jsOr (some "OAuth2 callback failed") fallback
        else
          let t100 := text.take 100
          s!"Server error ({status}): {t100}"
      failedRun msg session st probes (some req)
    else if !ctIsJson ct then
      let ctStr := ctText ct
      let t100 := text.take 100
      failedRun s!"Expected JSON but got: {ctStr}. Response: {t100}" session st probes (some req)
    else
      match body with
      | none => failedRun "Unexpected end of JSON input" session st probes (some req)
      | some data =>
        match data.token with
        | some t =>
          if t != "" && jsTrim t != "" then
            let em := jsOr data.userEmail (jsOr data.email "")
            ⟨.confirmEmail t em em, ⟨t, em, em⟩, session, probes, some req⟩
          else
            failedRun "OAuth2 authentication succeeded but token is missing. Please try again."
              session st probes (some req)
        | none =>
          failedRun "OAuth2 authentication succeeded but token is missing. Please try again."
            session st probes (some req)

/-- Tail of the procedure when no code is exchanged (lines 231-245):
the empty-token re-check, the token-in-state fallback, and the generic
"not found" failure. -/
def noTokenTail (page : Page) (session : Store) (st : CompState)
    (probes : List Probe) : RunResult :=
  if page.params.hasParam "token" && !truthyOpt (page.params.get "token") then
    failedRun "OAuth2 token parameter is present in URL but is empty. The backend may not have provided a token. Please check your backend OAuth2 configuration and try again."
      session st probes none
  else if st.token != "" then
    ⟨.confirmEmail st.token st.oauth2Email st.userEmail, st, session, probes, none⟩
  else
    failedRun "Authorization code or token not found. OAuth2 authentication may have failed. Please try logging in again."
      session st probes none

/-- Channels 3 and 4 (lines 131-245): inspect the URL parameters, then
exchange an authorization code if present. -/
def chan34 (env : Env) (page : Page) (session : Store) (st : CompState)
    (probes : List Probe) : RunResult :=
  if truthyOpt (page.params.get "error") then
    failedRun
      (jsOr (page.params.get "error_description")
        (jsOr (page.params.get "message") "OAuth2 authentication failed"))
      session st probes none
  else
    match page.params.get "token" with
    | some t =>
      if t != "" && jsTrim t != "" then
        let em := jsOr (page.params.get "email") ""
        ⟨.confirmEmail t em em, ⟨t, em, em⟩, session, probes, none⟩
      else
        failedRun "OAuth2 token is missing or empty. Please try logging in again."
          session st probes none
    | none =>
      match page.params.get "code" with
      | some c =>
        if c != "" then exchangeCode env page session st (probes ++ [.codeExchange]) c
        else noTokenTail page session st probes
      | none => noTokenTail page session st probes

/-- One invocation of `handleCallback` (lines 20-263): channel 1 (backend
success-page probe, only on the backend success page), then channel 2 (the
unconditioned success-endpoint probe), then URL parameters and the code
exchange. -/
def handleCallback (env : Env) (page : Page) (session : Store) (st : CompState) : RunResult :=
  let probes1 : List Probe := if page.onBackendSuccessPage then [.successPage] else []
  match chan1 env page with
  | some o => ⟨o, st, session, probes1, none⟩
  | none =>
    let probes2 := probes1 ++ [.successEndpoint]
    match chan2 env with
    | some (t, em) => ⟨.confirmEmail t em em, ⟨t, em, em⟩, session, probes2, none⟩
    | none => chan34 env page session st probes2

/-- Query parameters of the front-end callback URL built for a channel-1
redirect (lines 57 and 76): `token`, then `email` when one was carried. -/
def redirectParams (t : String) (e : Option String) : Params :=
  ("token", t) :: (match e with | some v => [("email", v)] | none => [])

/-- The page the browser lands on after a channel-1 redirect: the front-end
callback route (not the backend success page) carrying the redirect's
query parameters. -/
def pageAfterRedirect (t : String) (e : Option String) (origin : String) : Page :=
  ⟨false, redirectParams t e, origin⟩

/-- Two invocations of the callback effect on the same load (e.g. a
dependency re-evaluation of the `useEffect`), threading component state and
session storage; the value is the concatenated list of network probes. -/
def runTwiceProbes (env : Env) (page : Page) (session : Store) (st : CompState) :
    List Probe :=
  let r1 := handleCallback env page session st
  let r2 := handleCallback env page r1.session r1.state
  r1.probes ++ r2.probes

/-- Observable result of `handleEmailSubmit` (lines 309-336): durable
storage and session storage afterwards, whether `onLoginSuccess` was called
(the session's authenticated flag), the navigation target, and the inline
error message. -/
structure SubmitResult where
  localStore : Store
  session : Store
  authenticated : Bool
  nav : Option String
  errorMsg : Option String
deriving Repr, DecidableEq

/-- `handleEmailSubmit` (lines 309-336): with a non-blank confirmed email,
write the token (when truthy) and the trimmed email to durable storage, call
`onLoginSuccess`, remove `oauth2_redirect_after_login` and `oauth2_provider`,
and navigate to `/`. -/
def handleEmailSubmit (st : CompState) (localStore session : Store) : SubmitResult :=
  if (jsTrim st.userEmail) == "" then
    ⟨localStore, session, false, none, some "Please enter an email address"⟩
  else
    let l1 := if st.token != "" then localStore.setItem "token" st.token else localStore
    let l2 := l1.setItem "userEmail" (jsTrim st.userEmail)
    let s1 := (session.removeItem "oauth2_redirect_after_login").removeItem "oauth2_provider"
    ⟨l2, s1, true, some "/", none⟩

-- ### src/components/login/Login.tsx

/-- Observable result of `Login.handleSubmit`: durable storage afterwards,
whether `onLoginSuccess` was called, the navigation target, and the
displayed error message. -/
structure LoginResult where
  localStore : Store
  authenticated : Bool
  nav : Option String
  errorMsg : Option String
deriving Repr, DecidableEq

/-- `handleSubmit` (src/components/login/Login.tsx, lines 47-106) as a
function of the credentials, the `POST /api/auth/login` fetch result and
durable storage. -/
def loginSubmit (email _password : String) (resp : FetchResult LoginBody)
    (localStore : Store) : LoginResult :=
  match resp with
  | .rejected m => ⟨localStore, false, none, some m⟩
  | .response ok status ct body text =>
    if !ok then
      let fallback := s!"HTTP error! status: {status}"
      let msg :=
        if ctIsJson ct then
          match body with
          | some e => jsOr e.message fallback
          | none => jsOr (some "Login failed") fallback
        else
          let t100 := text.take 100
          s!"Server error ({status}): {t100}"
      ⟨localStore, false, none, some msg⟩
    else if !ctIsJson ct then
      let ctStr := ctText ct
      let t100 := text.take 100
      ⟨localStore, false, none, some s!"Expected JSON but got: {ctStr}. Response: {t100}"⟩
    else
      match body with
      | none => ⟨localStore, false, none, some "Unexpected end of JSON input"⟩
      | some data =>
        let l1 :=
          match data.token with
          | some t => if t != "" then localStore.setItem "token" t else localStore
          | none => localStore
        let l2 := l1.setItem "userEmail" email
        ⟨l2, true, some "/", none⟩

-- ### Derived definitions used by the statements

/-- Whether an outcome is the terminal `Failed` state. -/
def Outcome.isFailed : Outcome → Bool
  | .failed _ => true
  | _ => false

/-- The `email` query parameter a channel-1 JSON redirect carries:
`data.email` exactly when it is truthy (line 57). -/
def chan1Email (data : TokenBody) : Option String :=
  if truthyOpt data.email then data.email else none

/-- The best-effort email captured from a token-bearing JSON body:
`data.user?.email || data.email || ''` (lines 114 and 218). -/
def oauthEmail (data : TokenBody) : String :=
  jsOr data.userEmail (jsOr data.email "")

/-- An environment in which every fetch rejects (backend unreachable). -/
def envAllDown : Env :=
  ⟨.rejected "down", .rejected "down", .rejected "down"⟩

/-- An environment in which only the success endpoint answers, with token
`"T"`. -/
def envEndpointTok : Env :=
  ⟨.rejected "down",
   .response true 200 (some "application/json") (some ⟨some "T", none, none, none⟩) "",
   .rejected "down"⟩

/-- An environment in which the backend success-page probe answers with JSON
token `"TK"` and email `"e@x"`. -/
def envSuccessPageTok : Env :=
  ⟨.response true 200 (some "application/json") (some ⟨some "TK", some "e@x", none, none⟩) "",
   .rejected "down", .rejected "down"⟩

/-- An environment in which only the code exchange answers, with token
`"XT"` and a nested user email. -/
def envCodeTok : Env :=
  ⟨.rejected "down", .rejected "down",
   .response true 200 (some "application/json") (some ⟨some "XT", none, some "u@e", none⟩) ""⟩

-- ### Helper lemmas about the reconciler

theorem chan1_none_of_flagFalse (env : Env) (page : Page)
    (h : page.onBackendSuccessPage = false) : chan1 env page = none := by
  simp [chan1, h]

theorem chan1_some_flag (env : Env) (page : Page) (o : Outcome)
    (h : chan1 env page = some o) : page.onBackendSuccessPage = true := by
  cases hf : page.onBackendSuccessPage with
  | true => rfl
  | false => rw [chan1_none_of_flagFalse env page hf] at h; cases h

theorem chan34_probes (env : Env) (page : Page) (session : Store) (st : CompState)
    (probes : List Probe) :
    (chan34 env page session st probes).probes = probes ∨
      (chan34 env page session st probes).probes = probes ++ [Probe.codeExchange] := by
  unfold chan34 noTokenTail exchangeCode failedRun
  repeat' split
  all_goals simp

theorem chan34_outcome_ne_redirected (env : Env) (page : Page) (session : Store)
    (st : CompState) (probes : List Probe) (t : String) (e : Option String) :
    (chan34 env page session st probes).outcome ≠ Outcome.redirected t e := by
  unfold chan34 noTokenTail exchangeCode failedRun
  repeat' split
  all_goals simp

theorem exchangeCode_exchange (env : Env) (page : Page) (session : Store)
    (st : CompState) (probes : List Probe) (c : String) :
    (exchangeCode env page session st probes c).exchange =
      some ⟨c, page.params.get "state", jsOr (session.getItem "oauth2_provider") "google",
        page.origin ++ "/oauth2/callback"⟩ := by
  unfold exchangeCode failedRun
  repeat' split
  all_goals simp

theorem exchangeCode_probes (env : Env) (page : Page) (session : Store)
    (st : CompState) (probes : List Probe) (c : String) :
    (exchangeCode env page session st probes c).probes = probes := by
  unfold exchangeCode failedRun
  repeat' split
  all_goals simp

theorem clearFlow_provider (s : Store) : (clearFlow s).getItem "oauth2_provider" = none := by
  unfold clearFlow
  rw [Store.getItem_removeItem_ne _ _ _ (by decide),
    Store.getItem_removeItem_ne _ _ _ (by decide), Store.getItem_removeItem_self]

theorem clearFlow_redirect (s : Store) :
    (clearFlow s).getItem "oauth2_redirect_after_login" = none := by
  unfold clearFlow
  rw [Store.getItem_removeItem_ne _ _ _ (by decide), Store.getItem_removeItem_self]

theorem clearFlow_origin (s : Store) :
    (clearFlow s).getItem "oauth2_frontend_origin" = none := by
  unfold clearFlow
  rw [Store.getItem_removeItem_self]

theorem redirectParams_get_token (t : String) (e : Option String) :
    (redirectParams t e).get "token" = some t := by
  cases e <;> simp [redirectParams, Params.get]

theorem redirectParams_get_error (t : String) (e : Option String) :
    (redirectParams t e).get "error" = none := by
  have h1 : (("token" : String) == "error") = false := by decide
  have h2 : (("email" : String) == "error") = false := by decide
  cases e <;> simp [redirectParams, Params.get, h1, h2]

theorem redirectParams_get_email (t : String) (e : Option String) :
    (redirectParams t e).get "email" = e := by
  have h1 : (("token" : String) == "email") = false := by decide
  cases e <;> simp [redirectParams, Params.get, h1]

-- ### Claim theorems

/-- C9: a login submission with email `a@b.com` and password `pw123456`
receiving a 2xx JSON response `{token: "T"}` leaves durable storage with
`token=T` and `userEmail=a@b.com`, marks the session authenticated, and
navigates to `/`. -/
theorem c9_login_success_storage :
    (loginSubmit "a@b.com" "pw123456"
        (.response true 200 (some "application/json") (some ⟨some "T", none⟩) "")
        []).localStore.getItem "token" = some "T" ∧
    (loginSubmit "a@b.com" "pw123456"
        (.response true 200 (some "application/json") (some ⟨some "T", none⟩) "")
        []).localStore.getItem "userEmail" = some "a@b.com" ∧
    (loginSubmit "a@b.com" "pw123456"
        (.response true 200 (some "application/json") (some ⟨some "T", none⟩) "")
        []).authenticated = true ∧
    (loginSubmit "a@b.com" "pw123456"
        (.response true 200 (some "application/json") (some ⟨some "T", none⟩) "")
        []).nav = some "/" :=
  ⟨rfl, rfl, rfl, rfl⟩

/-- C10: `getApiUrl` first normalizes the endpoint to a leading slash; with
an empty resolved base it returns the normalized endpoint unchanged, with a
non-empty base it returns base ++ normalized endpoint; in particular
`/api/x` maps to `/api/x` (dev) and `https://api.example.com/api/x`
(that production base). -/
theorem c10_getApiUrl_resolution (cfg : ApiConfig) (endpoint : String) :
    jsStartsWith (if jsStartsWith endpoint "/" then endpoint else "/" ++ endpoint) "/" = true ∧
    (cfg.baseUrl = "" →
      getApiUrl cfg endpoint =
        (if jsStartsWith endpoint "/" then endpoint else "/" ++ endpoint)) ∧
    (cfg.baseUrl ≠ "" →
      getApiUrl cfg endpoint =
        cfg.baseUrl ++ (if jsStartsWith endpoint "/" then endpoint else "/" ++ endpoint)) ∧
    getApiUrl ⟨""⟩ "/api/x" = "/api/x" ∧
    getApiUrl ⟨"https://api.example.com"⟩ "/api/x" = "https://api.example.com/api/x" := by
  refine ⟨?_, ?_, ?_, rfl, rfl⟩
  · cases h : jsStartsWith endpoint "/" with
    | true => simpa using h
    | false => simp [h, jsStartsWith, String.data_append, charsStartWith]
  · intro hb
    simp [getApiUrl, getApiBaseUrl, hb]
  · intro hb
    have hb' : (cfg.baseUrl == "") = false := by simpa using hb
    simp [getApiUrl, getApiBaseUrl, hb']

/-- Witness for C10 at an endpoint without a leading slash and at the two
configured bases of the claim. -/
theorem c10_witness :
    jsStartsWith (if jsStartsWith "api/x" "/" then "api/x" else "/" ++ "api/x") "/" = true ∧
    getApiUrl ⟨""⟩ "api/x" = "/api/x" ∧
    getApiUrl ⟨"https://api.example.com"⟩ "api/x" = "https://api.example.com/api/x" ∧
    getApiUrl ⟨""⟩ "/api/x" = "/api/x" := by
  refine ⟨(c10_getApiUrl_resolution ⟨""⟩ "api/x").1, ?_, ?_,
    (c10_getApiUrl_resolution ⟨""⟩ "/api/x").2.2.2.1⟩
  · exact ((c10_getApiUrl_resolution ⟨""⟩ "api/x").2.1 rfl).trans (by decide)
  · exact ((c10_getApiUrl_resolution ⟨"https://api.example.com"⟩ "api/x").2.2.1
      (by decide)).trans (by decide)

/-- C8: a login submission receiving a non-2xx response leaves durable
storage unchanged, does not authenticate, does not navigate, and displays
the server-provided message when the JSON body carries a non-empty one
(a generic fallback otherwise). -/
theorem c8_login_failure (email password : String) (status : Nat) (ct : Option String)
    (body : Option LoginBody) (text : String) (localStore : Store) :
    (loginSubmit email password (.response false status ct body text) localStore).localStore =
      localStore ∧
    (loginSubmit email password (.response false status ct body text)
        localStore).authenticated = false ∧
    (loginSubmit email password (.response false status ct body text) localStore).nav = none ∧
    (loginSubmit email password (.response false status ct body text)
        localStore).errorMsg.isSome = true ∧
    (∀ j s, ctIsJson ct = true → body = some j → j.message = some s → s ≠ "" →
      (loginSubmit email password (.response false status ct body text) localStore).errorMsg =
        some s) := by
  refine ⟨by simp [loginSubmit], by simp [loginSubmit], by simp [loginSubmit],
    by simp [loginSubmit], ?_⟩
  intro j s hct hb hm hs
  have hs' : (s == "") = false := by simpa using hs
  simp [loginSubmit, hct, hb, hm, jsOr, hs']

/-- Witness for C8: the claim's mock — HTTP 401 with JSON body
`{message: "Invalid credentials"}` — leaves storage untouched and displays
"Invalid credentials". -/
theorem c8_witness :
    (loginSubmit "a@b.com" "wrong"
        (.response false 401 (some "application/json")
          (some ⟨none, some "Invalid credentials"⟩) "") []).localStore = [] ∧
    (loginSubmit "a@b.com" "wrong"
        (.response false 401 (some "application/json")
          (some ⟨none, some "Invalid credentials"⟩) "") []).authenticated = false ∧
    (loginSubmit "a@b.com" "wrong"
        (.response false 401 (some "application/json")
          (some ⟨none, some "Invalid credentials"⟩) "") []).nav = none ∧
    (loginSubmit "a@b.com" "wrong"
        (.response false 401 (some "application/json")
          (some ⟨none, some "Invalid credentials"⟩) "") []).errorMsg =
      some "Invalid credentials" := by
  have h := c8_login_failure "a@b.com" "wrong" 401 (some "application/json")
    (some ⟨none, some "Invalid credentials"⟩) "" []
  exact ⟨h.1, h.2.1, h.2.2.1,
    h.2.2.2.2 ⟨none, some "Invalid credentials"⟩ "Invalid credentials"
      (by decide) rfl rfl (by decide)⟩

/-- C5 counterexample: confirming the email removes `oauth2_provider` and
`oauth2_redirect_after_login` but leaves `oauth2_frontend_origin` behind,
so not all three transient flow-state keys are removed. -/
theorem c5_counterexample :
    (handleEmailSubmit ⟨"T", "e@x", "e@x"⟩ []
        [("oauth2_provider", "gh"), ("oauth2_redirect_after_login", "/"),
         ("oauth2_frontend_origin", "http://l")]).session.getItem "oauth2_frontend_origin" =
      some "http://l" ∧
    (handleEmailSubmit ⟨"T", "e@x", "e@x"⟩ []
        [("oauth2_provider", "gh"), ("oauth2_redirect_after_login", "/"),
         ("oauth2_frontend_origin", "http://l")]).session.getItem "oauth2_provider" = none :=
  ⟨rfl, rfl⟩

/-- C5 (amended): confirming a non-blank email with a non-empty held token
writes the token and the trimmed email to durable storage, marks the session
authenticated, navigates to `/`, and removes `oauth2_provider` and
`oauth2_redirect_after_login`; `oauth2_frontend_origin` is left untouched. -/
theorem c5_email_submit_commit (st : CompState) (localStore session : Store)
    (htok : st.token ≠ "") (hmail : (jsTrim st.userEmail) ≠ "") :
    (handleEmailSubmit st localStore session).localStore.getItem "token" = some st.token ∧
    (handleEmailSubmit st localStore session).localStore.getItem "userEmail" =
      some (jsTrim st.userEmail) ∧
    (handleEmailSubmit st localStore session).authenticated = true ∧
    (handleEmailSubmit st localStore session).nav = some "/" ∧
    (handleEmailSubmit st localStore session).session.getItem "oauth2_provider" = none ∧
    (handleEmailSubmit st localStore session).session.getItem "oauth2_redirect_after_login" =
      none ∧
    (handleEmailSubmit st localStore session).session.getItem "oauth2_frontend_origin" =
      session.getItem "oauth2_frontend_origin" := by
  have hm : ((jsTrim st.userEmail) == "") = false := by simpa using hmail
  have ht : (st.token != "") = true := by simpa using htok
  have hred : handleEmailSubmit st localStore session =
      ⟨(localStore.setItem "token" st.token).setItem "userEmail" (jsTrim st.userEmail),
       (session.removeItem "oauth2_redirect_after_login").removeItem "oauth2_provider",
       true, some "/", none⟩ := by
    simp [handleEmailSubmit, hm, ht]
  refine ⟨?_, ?_, ?_, ?_, ?_, ?_, ?_⟩
  · rw [hred]
    show ((localStore.setItem "token" st.token).setItem "userEmail"
      (jsTrim st.userEmail)).getItem "token" = some st.token
    rw [Store.getItem_setItem_ne _ _ _ _ (by decide), Store.getItem_setItem_self]
  · rw [hred]
    show ((localStore.setItem "token" st.token).setItem "userEmail"
      (jsTrim st.userEmail)).getItem "userEmail" = some (jsTrim st.userEmail)
    rw [Store.getItem_setItem_self]
  · rw [hred]
  · rw [hred]
  · rw [hred]
    show ((session.removeItem "oauth2_redirect_after_login").removeItem
      "oauth2_provider").getItem "oauth2_provider" = none
    rw [Store.getItem_removeItem_self]
  · rw [hred]
    show ((session.removeItem "oauth2_redirect_after_login").removeItem
      "oauth2_provider").getItem "oauth2_redirect_after_login" = none
    rw [Store.getItem_removeItem_ne _ _ _ (by decide), Store.getItem_removeItem_self]
  · rw [hred]
    show ((session.removeItem "oauth2_redirect_after_login").removeItem
      "oauth2_provider").getItem "oauth2_frontend_origin" =
        session.getItem "oauth2_frontend_origin"
    rw [Store.getItem_removeItem_ne _ _ _ (by decide),
      Store.getItem_removeItem_ne _ _ _ (by decide)]

/-- Witness for C5 at a concrete state with all three flow-state keys set. -/
theorem c5_witness :
    (handleEmailSubmit ⟨"T", "e@x", "e@x"⟩ []
        [("oauth2_provider", "gh"), ("oauth2_redirect_after_login", "/"),
         ("oauth2_frontend_origin", "http://l")]).localStore.getItem "token" = some "T" ∧
    (handleEmailSubmit ⟨"T", "e@x", "e@x"⟩ []
        [("oauth2_provider", "gh"), ("oauth2_redirect_after_login", "/"),
         ("oauth2_frontend_origin", "http://l")]).localStore.getItem "userEmail" =
      some (jsTrim "e@x") ∧
    (handleEmailSubmit ⟨"T", "e@x", "e@x"⟩ []
        [("oauth2_provider", "gh"), ("oauth2_redirect_after_login", "/"),
         ("oauth2_frontend_origin", "http://l")]).authenticated = true ∧
    (handleEmailSubmit ⟨"T", "e@x", "e@x"⟩ []
        [("oauth2_provider", "gh"), ("oauth2_redirect_after_login", "/"),
         ("oauth2_frontend_origin", "http://l")]).session.getItem "oauth2_provider" = none :=
  have h := c5_email_submit_commit ⟨"T", "e@x", "e@x"⟩ []
    [("oauth2_provider", "gh"), ("oauth2_redirect_after_login", "/"),
     ("oauth2_frontend_origin", "http://l")] (by decide) (by decide)
  ⟨h.1, h.2.1, h.2.2.1, h.2.2.2.2.1⟩

/-- C6: whenever `initiateOAuth2Login` fails before navigating (the fetch
rejected, the response was malformed, or the authorization URL was empty),
the error is re-raised with all three transient flow-state keys removed and
no navigation performed. -/
theorem c6_initiate_failure_clears (provider : String) (cfg : ApiConfig) (b : Browser)
    (resp : FetchResult AuthUrlBody) (session : Store) (m : String)
    (h : (initiateOAuth2Login provider cfg b resp session).raised = some m) :
    (initiateOAuth2Login provider cfg b resp session).session.getItem "oauth2_provider" =
      none ∧
    (initiateOAuth2Login provider cfg b resp
        session).session.getItem "oauth2_redirect_after_login" = none ∧
    (initiateOAuth2Login provider cfg b resp
        session).session.getItem "oauth2_frontend_origin" = none ∧
    (initiateOAuth2Login provider cfg b resp session).navHref = none := by
  unfold initiateOAuth2Login at h ⊢
  cases hr : getOAuth2AuthorizationUrl cfg b resp with
  | error m' =>
    simp [hr, clearFlow_provider, clearFlow_redirect, clearFlow_origin]
  | ok url =>
    by_cases hu : (url == "") = true
    · simp [hr, hu, clearFlow_provider, clearFlow_redirect, clearFlow_origin]
    · rw [hr] at h
      simp only [hu, Bool.false_eq_true] at h
      simp [eq_false_of_ne_true hu] at h

/-- Witness for C6: provider `github` with the authorization-URL fetch
rejecting before navigation. -/
theorem c6_witness :
    (initiateOAuth2Login "github" ⟨""⟩ ⟨"http://l", "/", none⟩
        (.rejected "Network down") []).raised = some "Network down" ∧
    (initiateOAuth2Login "github" ⟨""⟩ ⟨"http://l", "/", none⟩
        (.rejected "Network down") []).session.getItem "oauth2_provider" = none ∧
    (initiateOAuth2Login "github" ⟨""⟩ ⟨"http://l", "/", none⟩
        (.rejected "Network down") []).session.getItem "oauth2_redirect_after_login" = none ∧
    (initiateOAuth2Login "github" ⟨""⟩ ⟨"http://l", "/", none⟩
        (.rejected "Network down") []).session.getItem "oauth2_frontend_origin" = none ∧
    (initiateOAuth2Login "github" ⟨""⟩ ⟨"http://l", "/", none⟩
        (.rejected "Network down") []).navHref = none :=
  have h := c6_initiate_failure_clears "github" ⟨""⟩ ⟨"http://l", "/", none⟩
    (.rejected "Network down") [] "Network down" rfl
  ⟨rfl, h.1, h.2.1, h.2.2.1, h.2.2.2⟩

/-- C4 counterexample: with the `token` URL parameter present but equal to
the empty string, a success-endpoint response carrying token `"T"` still
drives the run to the email-confirmation screen, not to the terminal
failure. -/
theorem c4_counterexample :
    Params.get [("token", "")] "token" = some "" ∧
    (handleCallback envEndpointTok ⟨false, [("token", "")], "o"⟩ [] initState).outcome =
      Outcome.confirmEmail "T" "" "" ∧
    ((handleCallback envEndpointTok ⟨false, [("token", "")], "o"⟩ []
        initState).outcome).isFailed = false :=
  ⟨rfl, rfl, rfl⟩

/-- C4 (amended): provided neither the success-page probe (channel 1) nor the
success-endpoint probe (channel 2) is conclusive, a `token` query parameter
present but equal to the empty string ends the run in the terminal Failed
state (error displayed, redirect to login scheduled), never in
AwaitingEmailConfirmation. -/
theorem c4_empty_token_failed (env : Env) (page : Page) (session : Store) (st : CompState)
    (htok : page.params.get "token" = some "")
    (h1 : chan1 env page = none) (h2 : chan2 env = none) :
    ((handleCallback env page session st).outcome).isFailed = true := by
  simp only [handleCallback, h1, h2]
  unfold chan34
  rw [htok]
  by_cases herr : truthyOpt (page.params.get "error") = true
  · simp [herr, failedRun, Outcome.isFailed]
  · simp [eq_false_of_ne_true herr, failedRun, Outcome.isFailed]

/-- Witness for C4: backend unreachable, URL `?token=`. -/
theorem c4_witness :
    Params.get [("token", "")] "token" = some "" ∧
    chan1 envAllDown ⟨false, [("token", "")], "o"⟩ = none ∧
    chan2 envAllDown = none ∧
    ((handleCallback envAllDown ⟨false, [("token", "")], "o"⟩ []
        initState).outcome).isFailed = true :=
  ⟨rfl, rfl, rfl, c4_empty_token_failed envAllDown ⟨false, [("token", "")], "o"⟩ []
    initState rfl rfl rfl⟩

/-- C7: when the `oauth2_provider` flow-state key is absent and an
authorization code must be exchanged (channels 1-3 inconclusive), the
exchange request is still issued, with the fallback default provider
`google` — the missing key is recoverable, not fatal. -/
theorem c7_provider_fallback (env : Env) (page : Page) (session : Store) (st : CompState)
    (c : String)
    (hprov : session.getItem "oauth2_provider" = none)
    (h1 : chan1 env page = none) (h2 : chan2 env = none)
    (herr : truthyOpt (page.params.get "error") = false)
    (htok : page.params.get "token" = none)
    (hcode : page.params.get "code" = some c) (hc : c ≠ "") :
    (handleCallback env page session st).exchange =
      some ⟨c, page.params.get "state", "google", page.origin ++ "/oauth2/callback"⟩ ∧
    Probe.codeExchange ∈ (handleCallback env page session st).probes := by
  have hc' : (c != "") = true := by simpa using hc
  have hred : handleCallback env page session st =
      exchangeCode env page session st
        (((if page.onBackendSuccessPage then [Probe.successPage] else []) ++
          [Probe.successEndpoint]) ++ [Probe.codeExchange]) c := by
    simp only [handleCallback, h1, h2]
    unfold chan34
    simp [herr, htok, hcode, hc']
  constructor
  · rw [hred, exchangeCode_exchange, hprov]
    rfl
  · rw [hred, exchangeCode_probes]
    simp

/-- Witness for C7: no stored provider, code `abc`, other channels down. -/
theorem c7_witness :
    Store.getItem [] "oauth2_provider" = none ∧
    (handleCallback envAllDown ⟨false, [("code", "abc")], "o"⟩ [] initState).exchange =
      some ⟨"abc", Params.get [("code", "abc")] "state", "google", "o" ++ "/oauth2/callback"⟩ ∧
    Probe.codeExchange ∈ (handleCallback envAllDown ⟨false, [("code", "abc")], "o"⟩ []
      initState).probes :=
  have h := c7_provider_fallback envAllDown ⟨false, [("code", "abc")], "o"⟩ [] initState "abc"
    rfl rfl rfl rfl rfl rfl (by decide)
  ⟨rfl, h.1, h.2⟩

/-- C3 counterexample: with the backend unreachable and no URL parameters,
invoking the callback effect twice issues the success-endpoint probe twice —
the probing sequence is not performed exactly once. -/
theorem c3_counterexample :
    runTwiceProbes envAllDown ⟨false, [], "o"⟩ [] initState =
      [Probe.successEndpoint, Probe.successEndpoint] ∧
    (runTwiceProbes envAllDown ⟨false, [], "o"⟩ [] initState).length ≠ 1 :=
  ⟨rfl, by decide⟩

/-- C3 (amended): the callback effect has no per-load idempotence guard —
every invocation issues at least one network probe, so two invocations on
the same load issue at least two (the probing sequence re-runs on each
re-invocation). -/
theorem c3_no_idempotence_guard (env : Env) (page : Page) (session : Store) (st : CompState) :
    1 ≤ (handleCallback env page session st).probes.length ∧
    2 ≤ (runTwiceProbes env page session st).length := by
  have key : ∀ (e : Env) (p : Page) (ses : Store) (s : CompState),
      1 ≤ (handleCallback e p ses s).probes.length := by
    intro e p ses s
    cases h1 : chan1 e p with
    | some o =>
      have hf := chan1_some_flag e p o h1
      simp [handleCallback, h1, hf]
    | none =>
      cases h2 : chan2 e with
      | some pr =>
        obtain ⟨t0, em0⟩ := pr
        simp only [handleCallback, h1, h2]
        cases hf : p.onBackendSuccessPage <;> simp
      | none =>
        simp only [handleCallback, h1, h2]
        rcases chan34_probes e p ses s
            ((if p.onBackendSuccessPage then [Probe.successPage] else []) ++
              [Probe.successEndpoint]) with hp | hp <;>
          rw [hp] <;> cases hf : p.onBackendSuccessPage <;> simp
  refine ⟨key env page session st, ?_⟩
  have k1 := key env page session st
  have k2 := key env page (handleCallback env page session st).session
    (handleCallback env page session st).state
  simp only [runTwiceProbes, List.length_append]
  omega

/-- C2: probes are issued in the fixed priority order (the probe list is a
sublist of success-page, success-endpoint, code-exchange in that order); a
conclusive channel 1 (its token-carrying redirect) stops the run with only
the success-page fetch issued, so the channel 2 fetch is never issued; each
later probe is issued only when the earlier channels were inconclusive. -/
theorem c2_priority_order (env : Env) (page : Page) (session : Store) (st : CompState) :
    List.Sublist (handleCallback env page session st).probes
      [Probe.successPage, Probe.successEndpoint, Probe.codeExchange] ∧
    (∀ t e, (handleCallback env page session st).outcome = Outcome.redirected t e →
      (handleCallback env page session st).probes = [Probe.successPage]) ∧
    (Probe.successEndpoint ∈ (handleCallback env page session st).probes →
      chan1 env page = none) ∧
    (Probe.codeExchange ∈ (handleCallback env page session st).probes →
      chan1 env page = none ∧ chan2 env = none) := by
  cases h1 : chan1 env page with
  | some o =>
    have hf := chan1_some_flag env page o h1
    have hres : handleCallback env page session st =
        ⟨o, st, session, [Probe.successPage], none⟩ := by
      simp [handleCallback, h1, hf]
    refine ⟨?_, ?_, ?_, ?_⟩
    · rw [hres]
      show List.Sublist [Probe.successPage]
        [Probe.successPage, Probe.successEndpoint, Probe.codeExchange]
      decide
    · intro t e _
      rw [hres]
    · intro hm
      rw [hres] at hm
      simp at hm
    · intro hm
      rw [hres] at hm
      simp at hm
  | none =>
    cases h2 : chan2 env with
    | some pr =>
      obtain ⟨t0, em0⟩ := pr
      have hres : handleCallback env page session st =
          ⟨.confirmEmail t0 em0 em0, ⟨t0, em0, em0⟩, session,
            (if page.onBackendSuccessPage then [Probe.successPage] else []) ++
              [Probe.successEndpoint], none⟩ := by
        simp [handleCallback, h1, h2]
      refine ⟨?_, ?_, fun _ => rfl, ?_⟩
      · rw [hres]
        cases hf : page.onBackendSuccessPage
        · show List.Sublist ([] ++ [Probe.successEndpoint])
            [Probe.successPage, Probe.successEndpoint, Probe.codeExchange]
          decide
        · show List.Sublist ([Probe.successPage] ++ [Probe.successEndpoint])
            [Probe.successPage, Probe.successEndpoint, Probe.codeExchange]
          decide
      · intro t e h
        rw [hres] at h
        simp at h
      · intro hm
        rw [hres] at hm
        revert hm
        cases hf : page.onBackendSuccessPage
        · intro hm
          simp at hm
        · intro hm
          simp at hm
    | none =>
      refine ⟨?_, ?_, fun _ => rfl, fun _ => ⟨rfl, rfl⟩⟩
      · simp only [handleCallback, h1, h2]
        rcases chan34_probes env page session st
            ((if page.onBackendSuccessPage then [Probe.successPage] else []) ++
              [Probe.successEndpoint]) with hp | hp <;>
          rw [hp] <;> cases hf : page.onBackendSuccessPage <;>
            first
            | (show List.Sublist ([] ++ [Probe.successEndpoint])
                [Probe.successPage, Probe.successEndpoint, Probe.codeExchange]
               decide)
            | (show List.Sublist ([Probe.successPage] ++ [Probe.successEndpoint])
                [Probe.successPage, Probe.successEndpoint, Probe.codeExchange]
               decide)
            | (show List.Sublist (([] ++ [Probe.successEndpoint]) ++ [Probe.codeExchange])
                [Probe.successPage, Probe.successEndpoint, Probe.codeExchange]
               decide)
            | (show List.Sublist (([Probe.successPage] ++ [Probe.successEndpoint]) ++
                  [Probe.codeExchange])
                [Probe.successPage, Probe.successEndpoint, Probe.codeExchange]
               decide)
      · intro t e h
        simp only [handleCallback, h1, h2] at h
        exact absurd h (chan34_outcome_ne_redirected env page session st _ t e)

/-- Witness for C2 at a channel-1-conclusive environment, a quiet
environment, and a code-bearing URL. -/
theorem c2_witness :
    List.Sublist (handleCallback envAllDown ⟨false, [], "o"⟩ [] initState).probes
      [Probe.successPage, Probe.successEndpoint, Probe.codeExchange] ∧
    (handleCallback envSuccessPageTok ⟨true, [], "o"⟩ [] initState).probes =
      [Probe.successPage] ∧
    chan1 envAllDown ⟨false, [], "o"⟩ = none ∧
    (chan1 envAllDown ⟨false, [("code", "abc")], "o"⟩ = none ∧ chan2 envAllDown = none) := by
  refine ⟨(c2_priority_order envAllDown ⟨false, [], "o"⟩ [] initState).1, ?_, ?_, ?_⟩
  · exact (c2_priority_order envSuccessPageTok ⟨true, [], "o"⟩ [] initState).2.1
      "TK" (some "e@x") rfl
  · exact (c2_priority_order envAllDown ⟨false, [], "o"⟩ [] initState).2.2.1 (by decide)
  · exact (c2_priority_order envAllDown ⟨false, [("code", "abc")], "o"⟩ [] initState).2.2.2
      (by decide)

/-- C1 counterexample: the URL token channel receives the non-empty token
`" "` (whitespace only), yet the run ends in the terminal failure, not in
AwaitingEmailConfirmation — the code requires the token to be non-blank
after trimming, not merely non-empty. -/
theorem c1_counterexample :
    Params.get [("token", " ")] "token" = some " " ∧
    (" " : String) ≠ "" ∧
    (handleCallback envAllDown ⟨false, [("token", " ")], "o"⟩ [] initState).outcome =
      Outcome.failed "OAuth2 token is missing or empty. Please try logging in again." :=
  ⟨rfl, by decide, rfl⟩

/-- C1 (amended): every token-delivery channel, given a token that is
non-empty and non-blank after trimming (channel 2 requires only a truthy
token), leads to AwaitingEmailConfirmation holding exactly that token — for
channels 2-4 within the same run; for channel 1 the run ends by redirecting
to the front-end callback URL carrying exactly that token, and the
subsequent load (when its success-endpoint probe yields no token) reaches
AwaitingEmailConfirmation with exactly that token. -/
theorem c1_token_channels :
    (∀ (env : Env) (page : Page) (session : Store) (st : CompState) (status : Nat)
        (ct : Option String) (text : String) (data : TokenBody) (t : String),
      page.onBackendSuccessPage = true →
      env.successPage = FetchResult.response true status ct (some data) text →
      ctIsJson ct = true →
      data.token = some t → t ≠ "" → jsTrim t ≠ "" →
      (handleCallback env page session st).outcome =
        Outcome.redirected t (chan1Email data) ∧
      (∀ (env2 : Env) (session2 : Store) (st2 : CompState) (origin2 : String),
        chan2 env2 = none →
        (handleCallback env2 (pageAfterRedirect t (chan1Email data) origin2)
            session2 st2).outcome =
          Outcome.confirmEmail t (jsOr (chan1Email data) "") (jsOr (chan1Email data) ""))) ∧
    (∀ (env : Env) (page : Page) (session : Store) (st : CompState) (status : Nat)
        (ct : Option String) (text : String) (data : TokenBody) (t : String),
      chan1 env page = none →
      env.successEndpoint = FetchResult.response true status ct (some data) text →
      ctIsJson ct = true →
      data.token = some t → t ≠ "" →
      (handleCallback env page session st).outcome =
        Outcome.confirmEmail t (oauthEmail data) (oauthEmail data)) ∧
    (∀ (env : Env) (page : Page) (session : Store) (st : CompState) (t : String),
      chan1 env page = none → chan2 env = none →
      truthyOpt (page.params.get "error") = false →
      page.params.get "token" = some t → t ≠ "" → jsTrim t ≠ "" →
      (handleCallback env page session st).outcome =
        Outcome.confirmEmail t (jsOr (page.params.get "email") "")
          (jsOr (page.params.get "email") "")) ∧
    (∀ (env : Env) (page : Page) (session : Store) (st : CompState) (c : String)
        (status : Nat) (ct : Option String) (text : String) (data : TokenBody) (t : String),
      chan1 env page = none → chan2 env = none →
      truthyOpt (page.params.get "error") = false →
      page.params.get "token" = none →
      page.params.get "code" = some c → c ≠ "" →
      env.codeExchange = FetchResult.response true status ct (some data) text →
      ctIsJson ct = true →
      data.token = some t → t ≠ "" → jsTrim t ≠ "" →
      (handleCallback env page session st).outcome =
        Outcome.confirmEmail t (oauthEmail data) (oauthEmail data)) := by
  refine ⟨?_, ?_, ?_, ?_⟩
  · intro env page session st status ct text data t hf hresp hct htok ht htr
    have ht' : (t != "") = true := by simpa using ht
    have htr' : ((jsTrim t) != "") = true := by simpa using htr
    have hc1 : chan1 env page = some (.redirected t (chan1Email data)) := by
      simp [chan1, hf, hresp, hct, htok, ht', htr', chan1Email]
    constructor
    · simp [handleCallback, hc1]
    · intro env2 session2 st2 origin2 h2
      have h1' : chan1 env2 (pageAfterRedirect t (chan1Email data) origin2) = none :=
        chan1_none_of_flagFalse _ _ rfl
      simp only [handleCallback, h1', h2]
      unfold chan34
      simp [pageAfterRedirect, redirectParams_get_error, redirectParams_get_token,
        redirectParams_get_email, truthyOpt, ht', htr']
  · intro env page session st status ct text data t h1 hresp hct htok ht
    have ht' : (t != "") = true := by simpa using ht
    have hc2 : chan2 env = some (t, oauthEmail data) := by
      simp [chan2, hresp, hct, htok, ht', oauthEmail]
    simp [handleCallback, h1, hc2]
  · intro env page session st t h1 h2 herr htok ht htr
    have ht' : (t != "") = true := by simpa using ht
    have htr' : ((jsTrim t) != "") = true := by simpa using htr
    simp only [handleCallback, h1, h2]
    unfold chan34
    simp [herr, htok, ht', htr']
  · intro env page session st c status ct text data t h1 h2 herr htokn hcode hc hxresp
      hxct hdtok ht htr
    have hc' : (c != "") = true := by simpa using hc
    have ht' : (t != "") = true := by simpa using ht
    have htr' : ((jsTrim t) != "") = true := by simpa using htr
    simp only [handleCallback, h1, h2]
    unfold chan34
    simp only [herr, htokn, hcode, hc', Bool.false_eq_true, if_false, if_true]
    unfold exchangeCode
    simp [hxresp, hxct, hdtok, ht', htr', oauthEmail]

/-- Witness for C1 at concrete environments for each of the four channels
(including the composed channel-1 redirect-then-reload). -/
theorem c1_witness :
    (handleCallback envSuccessPageTok ⟨true, [], "o"⟩ [] initState).outcome =
      Outcome.redirected "TK" (some "e@x") ∧
    (handleCallback envAllDown (pageAfterRedirect "TK" (some "e@x") "o") [] initState).outcome =
      Outcome.confirmEmail "TK" "e@x" "e@x" ∧
    (handleCallback envEndpointTok ⟨false, [], "o"⟩ [] initState).outcome =
      Outcome.confirmEmail "T" "" "" ∧
    (handleCallback envAllDown ⟨false, [("token", "U5")], "o"⟩ [] initState).outcome =
      Outcome.confirmEmail "U5" "" "" ∧
    (handleCallback envCodeTok ⟨false, [("code", "abc")], "o"⟩ [] initState).outcome =
      Outcome.confirmEmail "XT" "u@e" "u@e" := by
  have h1 := c1_token_channels.1 envSuccessPageTok ⟨true, [], "o"⟩ [] initState 200
    (some "application/json") "" ⟨some "TK", some "e@x", none, none⟩ "TK" rfl rfl
    (by decide) rfl (by decide) (by decide)
  refine ⟨h1.1, ?_, ?_, ?_, ?_⟩
  · exact h1.2 envAllDown [] initState "o" rfl
  · exact c1_token_channels.2.1 envEndpointTok ⟨false, [], "o"⟩ [] initState 200
      (some "application/json") "" ⟨some "T", none, none, none⟩ "T" rfl rfl (by decide)
      rfl (by decide)
  · exact c1_token_channels.2.2.1 envAllDown ⟨false, [("token", "U5")], "o"⟩ [] initState
      "U5" rfl rfl rfl rfl (by decide) (by decide)
  · exact c1_token_channels.2.2.2 envCodeTok ⟨false, [("code", "abc")], "o"⟩ [] initState
      "abc" 200 (some "application/json") "" ⟨some "XT", none, some "u@e", none⟩ "XT"
      rfl rfl rfl rfl rfl (by decide) rfl (by decide) rfl (by decide) (by decide)
